import Mathlib

/-!
Verification development for the coffee-shop drinks backend
(`src/backend/src/api.py`).

The embedding models the five HTTP routes of `api.py`, the SQLAlchemy-backed
drink store as a list of rows, Flask's `jsonify` output as an inductive JSON
value, and Flask's error dispatch for the error handlers that `api.py`
registers.  The auth module (`.auth.auth`: `AuthError`, `requires_auth`) and
the database model (`.database.models`: `Drink` with its `short`/`long`
projections) are imported by `api.py` but their files are not part of the
sources; those definitions are modelled from the specification and are marked
as such in their doc comments.
-/

namespace DrinksApi

/-- JSON values, as produced by `flask.jsonify`.  Object fields are kept in
insertion order, as in the Python dict literals of `api.py`. -/
inductive Json where
  | bool (b : Bool)
  | num (n : Int)
  | str (s : String)
  | arr (xs : List Json)
  | obj (fields : List (String × Json))

/-- Modelled from the spec: one entry of a drink recipe, from the missing
`database/models.py` — "ordered sequence of ingredient entries, each with a
name, color, and parts-count". -/
structure Ingredient where
  name : String
  color : String
  parts : Nat
deriving DecidableEq, Repr

/-- Modelled from the spec: the `Drink` row of the missing
`database/models.py` — `id` (unique, generated), `title` (string, required),
`recipe` (stored serialized; the `json.dumps`/`json.loads` round trip is
elided, the deserialized value is stored directly). -/
structure Drink where
  id : Nat
  title : String
  recipe : List Ingredient
deriving DecidableEq, Repr

/-- Modelled from the spec: `Drink.short` of the missing
`database/models.py` — short projection, recipe entries carry only `color`
and `parts`, the ingredient `name` is withheld. -/
def Drink.short (d : Drink) : Json :=
  .obj [(("id"), .num d.id), (("title"), .str d.title),
        (("recipe"), .arr (d.recipe.map fun i =>
          .obj [(("color"), .str i.color), (("parts"), .num i.parts)]))]

/-- Modelled from the spec: `Drink.long` of the missing
`database/models.py` — long projection, full recipe including ingredient
`name`. -/
def Drink.long (d : Drink) : Json :=
  .obj [(("id"), .num d.id), (("title"), .str d.title),
        (("recipe"), .arr (d.recipe.map fun i =>
          .obj [(("name"), .str i.name), (("color"), .str i.color),
                (("parts"), .num i.parts)]))]

/-- The drinks table: the persistent store `api.py` operates on. -/
abbrev Store := List Drink

/-- A field of a JSON request body: absent from the object, present with
JSON value `null` (Python `None`), or present with a value. -/
inductive Field (α : Type) where
  | absent
  | null
  | value (a : α)
deriving DecidableEq, Repr

/-- Python's `body.get(key)` / `body.get(key, None)`: both an absent key and
an explicit JSON `null` come back as `None`. -/
def Field.get {α : Type} : Field α → Option α
  | .absent => none
  | .null => none
  | .value a => some a

/-- The JSON request body used by the POST and PATCH handlers: the `title`
and `recipe` keys of the dict returned by `request.get_json()`. -/
structure DrinkBody where
  title : Field String
  recipe : Field (List Ingredient)
deriving DecidableEq, Repr

/-- An exception escaping a handler's `try` block: a `werkzeug`
`HTTPException` carrying an HTTP status code (raised by `abort(code)`), or
any other Python exception. -/
inductive Exc where
  | http (code : Nat)
  | other
deriving DecidableEq, Repr

/-- An HTTP response: status code, and its JSON body when `jsonify` built
one (`none` for Flask's default non-JSON error pages). -/
structure HttpResponse where
  status : Nat
  json : Option Json

/-- Success body `{"success": True, "drinks": drinks}` shared by the GET,
POST and PATCH routes of `api.py`. -/
def successDrinksJson (drinks : List Json) : Json :=
  .obj [(("success"), .bool true), (("drinks"), .arr drinks)]

/-- Success body `{"success": True, "delete": id}` of the DELETE route. -/
def deleteJson (id : Nat) : Json :=
  .obj [(("success"), .bool true), (("delete"), .num id)]

/-- The error envelope `{"success": False, "error": code, "message": msg}`
produced by each of the four error handlers registered in `api.py`. -/
def errorEnvelope (code : Nat) (msg : String) : Json :=
  .obj [(("success"), .bool false), (("error"), .num code), (("message"), .str msg)]

/-- Flask's dispatch of an aborted `HTTPException` by status code, for the
handlers `api.py` registers: 422 (`unprocessable`), 404 (`not_found`),
401 (`unauthorized`), 403 (`forbidden`).  Any other status code has no
registered handler and gets Flask's default non-JSON error page. -/
def error_response (code : Nat) : HttpResponse :=
  if code = 422 then ⟨422, some (errorEnvelope 422 ("unprocessable"))⟩
  else if code = 404 then ⟨404, some (errorEnvelope 404 ("resource not found"))⟩
  else if code = 401 then ⟨401, some (errorEnvelope 401 ("unauthorized"))⟩
  else if code = 403 then ⟨403, some (errorEnvelope 403 ("forbidden"))⟩
  else ⟨code, none⟩

/-- The `except` clause shared by the PATCH and DELETE handlers:
`if isinstance(e, HTTPException): abort(e.code) else: abort(422)`. -/
def handle_exception (e : Exc) : Nat :=
  match e with
  | .http c => c
  | .other => 422

/-- `Drink.query.order_by(Drink.id).all()`: the rows sorted by ascending
id. -/
def sortById (s : Store) : List Drink :=
  List.insertionSort (fun a b => a.id ≤ b.id) s

/-- `Drink.query.filter(Drink.id == id).one_or_none()`: the row with the
given id, when there is one (ids are unique — the primary key). -/
def findById (s : Store) (id : Nat) : Option Drink :=
  s.find? (fun d => d.id == id)

/-- In-place mutation of the row found by `one_or_none` followed by
`drink.update()`: the first row satisfying `p` is replaced by `d`. -/
def updateFirst (p : Drink → Bool) (d : Drink) : List Drink → List Drink
  | [] => []
  | x :: xs => if p x then d :: xs else x :: updateFirst p d xs

/-! ## The auth layer

`api.py` imports `AuthError` and `requires_auth` from `.auth.auth`, whose
file is not part of the sources; the definitions below are modelled from the
specification (sections 4.1 Token Verifier and 4.2 Permission Gate). -/

/-- Modelled from the spec: the failure taxonomy of the missing auth module
(section 7). -/
inductive AuthErrorCode where
  | missingToken
  | invalidHeader
  | expiredToken
  | invalidClaims
  | invalidSignature
  | insufficientScope
deriving DecidableEq, Repr

/-- Modelled from the spec: the `AuthError` exception of the missing auth
module — "a structured error with an HTTP status ... and a machine-readable
code plus human-readable description". -/
structure AuthError where
  status : Nat
  code : AuthErrorCode
  description : String
deriving DecidableEq, Repr

/-- Modelled from the spec: the decoded claims of a verified token —
"primarily a set of permission strings"; `none` models claims that "lack a
`permissions` field entirely". -/
structure Claims where
  permissions : Option (List String)
deriving DecidableEq, Repr

/-- Python's `s.split(' ')` on the character list of `s`: maximal runs of
non-space characters, with an empty part between adjacent spaces and at the
ends. -/
def splitSpaces : List Char → List (List Char)
  | [] => [[]]
  | c :: cs =>
    let parts := splitSpaces cs
    if c = ' ' then [] :: parts
    else
      match parts with
      | [] => [[c]]
      | w :: ws => (c :: w) :: ws

/-- Modelled from the spec: header parsing of the missing auth module
(section 4.1, step 1) — the `Authorization` header "must be exactly two
space-separated parts, first literally `Bearer`"; a missing header or one
not of that form fails `MissingToken`, a malformed scheme fails
`InvalidHeader`.  All token-related failures carry HTTP status 401. -/
def get_token_auth_header (header : Option String) : Except AuthError String :=
  match header with
  | none => .error ⟨401, .missingToken, ("Authorization header is expected")⟩
  | some h =>
    match (splitSpaces h.toList).map List.asString with
    | [scheme, token] =>
      if scheme = ("Bearer") then .ok token
      else .error ⟨401, .invalidHeader, ("Authorization header must start with Bearer")⟩
    | _ => .error ⟨401, .missingToken, ("Authorization header must be a bearer token")⟩

/-- Modelled from the spec: the permission gate of the missing auth module
(section 4.2) — succeed if the `permissions` array in the claims contains
the required string; fail `InsufficientScope` (HTTP 403) if it does not;
fail `InvalidClaims` (mapped to 401 for this system) if the claims lack a
`permissions` field entirely. -/
def check_permissions (permission : String) (claims : Claims) : Except AuthError Unit :=
  match claims.permissions with
  | none => .error ⟨401, .invalidClaims, ("Permissions not included in JWT")⟩
  | some ps =>
    if permission ∈ ps then .ok ()
    else .error ⟨403, .insufficientScope, ("Permission not found")⟩

/-- Modelled from the spec: the `requires_auth(permission)` decorator of the
missing auth module — parse the header, verify and decode the token, check
the permission, then call the wrapped handler with the verified claims.  The
cryptographic verifier (spec 4.1 steps 2-4: key lookup, signature, expiry,
audience, issuer) is not shallowly embeddable and is taken as the function
argument `verify`; every theorem about the pipeline holds for an arbitrary
verifier. -/
def requires_auth {α : Type} (verify : String → Except AuthError Claims)
    (permission : String) (f : Claims → α) (header : Option String) :
    Except AuthError α :=
  match get_token_auth_header header with
  | .error e => .error e
  | .ok token =>
    match verify token with
    | .error e => .error e
    | .ok payload =>
      match check_permissions permission payload with
      | .error e => .error e
      | .ok _ => .ok (f payload)

/-- An exception propagating out of a route to Flask's dispatcher: an
`HTTPException` (from `abort`) or an `AuthError` from the auth decorator. -/
inductive Raised where
  | http (code : Nat)
  | auth (e : AuthError)

/-- Flask's error dispatch for the handlers `api.py` registers.  All four
registrations are by numeric status code (422, 404, 401, 403), so they catch
`HTTPException`s with those codes.  `api.py` registers no handler for the
`AuthError` class (nor for `Exception`), and `AuthError` is not an
`HTTPException`, so a raised `AuthError` escapes every registered handler
and Flask produces its generic `500 Internal Server Error` page, which
carries none of the `AuthError`'s fields. -/
def flask_dispatch : Raised → HttpResponse
  | .http c => error_response c
  | .auth _ => ⟨500, none⟩

/-! ## The route handlers of `api.py` -/

/-- The body of `create_drink`'s `try` block: read `title` and `recipe` from
the body, build a `Drink`, `insert()` it.  `body = none` models
`request.get_json()` returning `None` (the subsequent `body.get` raises a
non-HTTP `AttributeError`).  A body whose `title` or `recipe` is `None`
violates the model's required columns, so `insert()` raises a (non-HTTP)
database error; `insertOk = false` models any other persistence failure.
`nextId` is the generated primary key. -/
def create_drink_try (store : Store) (nextId : Nat) (body : Option DrinkBody)
    (insertOk : Bool) : Except Exc (Json × Store) :=
  match body with
  | none => .error .other
  | some b =>
    match b.title.get, b.recipe.get with
    | some t, some r =>
      if insertOk then
        .ok (successDrinksJson [(Drink.mk nextId t r).long], store ++ [Drink.mk nextId t r])
      else .error .other
    | _, _ => .error .other

/-- `create_drink` (POST `/drinks`): the `try` block, with
`except Exception: abort(422)`. -/
def create_drink (_payload : Claims) (store : Store) (nextId : Nat)
    (body : Option DrinkBody) (insertOk : Bool) : HttpResponse × Store :=
  match create_drink_try store nextId body insertOk with
  | .ok (j, s) => (⟨200, some j⟩, s)
  | .error _ => (error_response 422, store)

/-- The drink found by `one_or_none` with the fields supplied by the PATCH
body applied: `title` is assigned when `body.get("title")` is not `None`,
then `recipe` likewise. -/
def patchedDrink (d : Drink) (b : DrinkBody) : Drink :=
  let d1 :=
    match b.title.get with
    | some t => { d with title := t }
    | none => d
  match b.recipe.get with
  | some r => { d1 with recipe := r }
  | none => d1

/-- The body of `update_drink`'s `try` block.  `body = request.get_json()`
raises nothing even when it yields `None`; the drink is then looked up and
`abort(404)` raised if absent, so a missing body (whose `body.get` raises a
non-HTTP `AttributeError`) is only reached for an existing drink.
`persistOk = false` models `drink.update()` raising a (non-HTTP) database
error, which rolls the transaction back. -/
def update_drink_try (store : Store) (id : Nat) (body : Option DrinkBody)
    (persistOk : Bool) : Except Exc (Json × Store) :=
  match findById store id with
  | none => .error (.http 404)
  | some drink =>
    match body with
    | none => .error .other
    | some b =>
      if persistOk then
        .ok (successDrinksJson [(patchedDrink drink b).long],
             updateFirst (fun d => d.id == id) (patchedDrink drink b) store)
      else .error .other

/-- `update_drink` (PATCH `/drinks/<id>`): the `try` block, with
`except Exception as e: abort(e.code) if isinstance(e, HTTPException) else
abort(422)`.  A failed attempt leaves the store unchanged (single-statement
transaction rollback). -/
def update_drink (_payload : Claims) (store : Store) (id : Nat)
    (body : Option DrinkBody) (persistOk : Bool) : HttpResponse × Store :=
  match update_drink_try store id body persistOk with
  | .ok (j, s) => (⟨200, some j⟩, s)
  | .error e => (error_response (handle_exception e), store)

/-- The body of `delete_drink`'s `try` block: look the drink up,
`abort(404)` if absent, otherwise `drink.delete()` removes that row.
`persistOk = false` models `delete()` raising a (non-HTTP) database
error. -/
def delete_drink_try (store : Store) (id : Nat) (persistOk : Bool) :
    Except Exc (Json × Store) :=
  match findById store id with
  | none => .error (.http 404)
  | some _ =>
    if persistOk then
      .ok (deleteJson id, store.eraseP (fun d => d.id == id))
    else .error .other

/-- `delete_drink` (DELETE `/drinks/<id>`): the `try` block, with the same
`except` clause as `update_drink`. -/
def delete_drink (_payload : Claims) (store : Store) (id : Nat)
    (persistOk : Bool) : HttpResponse × Store :=
  match delete_drink_try store id persistOk with
  | .ok (j, s) => (⟨200, some j⟩, s)
  | .error e => (error_response (handle_exception e), store)

/-- `get_drinks` (GET `/drinks`): public, no `requires_auth` decorator and
no token input; all drinks ordered by id, short projection. -/
def get_drinks (store : Store) : HttpResponse :=
  ⟨200, some (successDrinksJson ((sortById store).map Drink.short))⟩

/-- The handler body of `get_drinks_detail` (GET `/drinks-detail`): all
drinks ordered by id, long projection. -/
def get_drinks_detail (_payload : Claims) (store : Store) : HttpResponse × Store :=
  (⟨200, some (successDrinksJson ((sortById store).map Drink.long))⟩, store)

/-! ## The decorated routes

Each non-public route is its handler wrapped by `requires_auth`; an
`AuthError` raised by the decorator propagates to Flask's dispatcher and the
handler is never invoked. -/

/-- A protected route: run the `requires_auth` pipeline, then the handler on
the verified claims; on an `AuthError`, the store is untouched and the
response comes from Flask's dispatch of the escaped exception. -/
def run_protected (verify : String → Except AuthError Claims) (permission : String)
    (handler : Claims → Store → HttpResponse × Store) (header : Option String)
    (store : Store) : HttpResponse × Store :=
  match requires_auth verify permission (fun payload => handler payload store) header with
  | .ok r => r
  | .error e => (flask_dispatch (.auth e), store)

/-- GET `/drinks-detail`, decorated with `requires_auth('get:drinks-detail')`. -/
def get_drinks_detail_route (verify : String → Except AuthError Claims)
    (header : Option String) (store : Store) : HttpResponse × Store :=
  run_protected verify ("get:drinks-detail") get_drinks_detail header store

/-- POST `/drinks`, decorated with `requires_auth('post:drinks')`. -/
def create_drink_route (verify : String → Except AuthError Claims)
    (header : Option String) (store : Store) (nextId : Nat)
    (body : Option DrinkBody) (insertOk : Bool) : HttpResponse × Store :=
  run_protected verify ("post:drinks")
    (fun payload s => create_drink payload s nextId body insertOk) header store

/-- PATCH `/drinks/<id>`, decorated with `requires_auth('patch:drinks')`. -/
def update_drink_route (verify : String → Except AuthError Claims)
    (header : Option String) (store : Store) (id : Nat)
    (body : Option DrinkBody) (persistOk : Bool) : HttpResponse × Store :=
  run_protected verify ("patch:drinks")
    (fun payload s => update_drink payload s id body persistOk) header store

/-- DELETE `/drinks/<id>`, decorated with `requires_auth('delete:drinks')`. -/
def delete_drink_route (verify : String → Except AuthError Claims)
    (header : Option String) (store : Store) (id : Nat) (persistOk : Bool) :
    HttpResponse × Store :=
  run_protected verify ("delete:drinks")
    (fun payload s => delete_drink payload s id persistOk) header store

/-! ## Helper lemmas -/

instance : IsTotal Drink (fun a b => a.id ≤ b.id) :=
  ⟨fun a b => Nat.le_total a.id b.id⟩

instance : IsTrans Drink (fun a b => a.id ≤ b.id) :=
  ⟨fun _ _ _ hab hbc => Nat.le_trans hab hbc⟩

theorem updateFirst_cons (p : Drink → Bool) (d x : Drink) (xs : List Drink) :
    updateFirst p d (x :: xs) =
      if p x then d :: xs else x :: updateFirst p d xs := rfl

/-- A successful `one_or_none` lookup splits the table into the rows before
the hit (none of which carries the id), the hit, and the rows after it; the
in-place update rewrites the hit and `delete` drops it. -/
theorem findById_decomp (store : Store) (id : Nat) (drink : Drink)
    (h : findById store id = some drink) :
    ∃ l₁ l₂, store = l₁ ++ drink :: l₂ ∧ (∀ x ∈ l₁, x.id ≠ id) ∧ drink.id = id ∧
      (∀ d, updateFirst (fun x => x.id == id) d store = l₁ ++ d :: l₂) ∧
      store.eraseP (fun x => x.id == id) = l₁ ++ l₂ := by
  induction store with
  | nil => simp [findById] at h
  | cons a as ih =>
    by_cases ha : a.id = id
    · have hdrink : drink = a := by
        simp [findById, List.find?_cons, ha] at h
        exact h.symm
      subst hdrink
      refine ⟨[], as, by simp, by simp, ha, fun d => ?_, ?_⟩
      · simp [updateFirst_cons, ha]
      · simp [List.eraseP_cons, ha]
    · have h' : findById as id = some drink := by
        simpa [findById, List.find?_cons, ha] using h
      obtain ⟨l₁, l₂, hs, hl₁, hid, hupd, hera⟩ := ih h'
      refine ⟨a :: l₁, l₂, by simp [hs], ?_, hid, fun d => ?_, ?_⟩
      · intro x hx
        rcases List.mem_cons.mp hx with rfl | hx
        · exact ha
        · exact hl₁ x hx
      · simp [updateFirst_cons, ha, hupd d]
      · simp [List.eraseP_cons, ha, hera]

theorem findById_eq_none (s : Store) (id : Nat) (h : ∀ d ∈ s, d.id ≠ id) :
    findById s id = none := by
  refine List.find?_eq_none.mpr fun x hx => ?_
  simpa using h x hx

/-! ## The claims -/

/-- C6: for every state of the drink store, GET `/drinks` succeeds without
any token (the handler takes no authorization input at all) and returns all
stored drinks ordered by ascending id, each in the short projection, whose
recipe entries carry only `color` and `parts` — the ingredient `name` is
withheld. -/
theorem get_drinks_public_short_sorted (store : Store) :
    get_drinks store =
      ⟨200, some (successDrinksJson ((sortById store).map Drink.short))⟩ ∧
    List.Perm (sortById store) store ∧
    List.Sorted (fun a b => a.id ≤ b.id) (sortById store) ∧
    (∀ d : Drink, d.short =
      Json.obj [(("id"), .num d.id), (("title"), .str d.title),
        (("recipe"), .arr (d.recipe.map fun i =>
          Json.obj [(("color"), .str i.color), (("parts"), .num i.parts)]))]) :=
  ⟨rfl, List.perm_insertionSort _ _, List.sorted_insertionSort _ _, fun _ => rfl⟩

/-- C4: a PATCH whose id matches no stored drink gets the 404 NotFound
envelope (not the generic 422 fallback), whatever the request body, and the
store is unchanged. -/
theorem patch_unknown_id_is_404 (payload : Claims) (store : Store) (id : Nat)
    (body : Option DrinkBody) (persistOk : Bool)
    (h : findById store id = none) :
    update_drink payload store id body persistOk =
      (⟨404, some (errorEnvelope 404 ("resource not found"))⟩, store) := by
  simp [update_drink, update_drink_try, h, handle_exception, error_response]

/-- Witness for C4 at a concrete input: an empty store has no drink 7. -/
theorem patch_unknown_id_is_404_witness :
    update_drink ⟨some [("patch:drinks")]⟩ [] 7 none true =
      (⟨404, some (errorEnvelope 404 ("resource not found"))⟩, []) :=
  patch_unknown_id_is_404 ⟨some [("patch:drinks")]⟩ [] 7 none true rfl

/-- C7: in the Update and Delete handlers, an exception escaping the `try`
block that is an `HTTPException` is re-surfaced with its own status code
(`abort(e.code)` — the internal 404 stays a 404), and every other exception
is mapped to a 422 unprocessable error; in both cases the store is left
unchanged. -/
theorem handler_exceptions_mapped (payload : Claims) (store : Store) (id : Nat)
    (body : Option DrinkBody) (persistOk : Bool) :
    (∀ e, update_drink_try store id body persistOk = .error e →
      update_drink payload store id body persistOk =
        (error_response (handle_exception e), store)) ∧
    (∀ e, delete_drink_try store id persistOk = .error e →
      delete_drink payload store id persistOk =
        (error_response (handle_exception e), store)) ∧
    (∀ c, handle_exception (.http c) = c) ∧
    handle_exception .other = 422 ∧
    (∀ c, (error_response c).status = c) := by
  refine ⟨fun e he => ?_, fun e he => ?_, fun _ => rfl, rfl, fun c => ?_⟩
  · simp [update_drink, he]
  · simp [delete_drink, he]
  · unfold error_response
    split_ifs <;> simp_all

/-- Witness for C7 at a concrete input: deleting from the empty store raises
the internal `abort(404)`, which is re-surfaced as a 404. -/
theorem handler_exceptions_mapped_witness :
    delete_drink ⟨some [("delete:drinks")]⟩ [] 7 true =
      (error_response (handle_exception (.http 404)), []) :=
  (handler_exceptions_mapped ⟨some [("delete:drinks")]⟩ [] 7 none true).2.1
    (.http 404) rfl

/-- C2: a PATCH on an existing drink changes only that drink — the rows
before and after it in the table are untouched — and on that drink only the
fields supplied in the body: an absent `title` or `recipe` keeps its
previous value, a supplied one is overwritten, and the id never changes. -/
theorem patch_changes_only_supplied_fields (payload : Claims) (store : Store)
    (id : Nat) (b : DrinkBody) (drink : Drink)
    (h : findById store id = some drink) :
    ∃ l₁ l₂,
      store = l₁ ++ drink :: l₂ ∧ (∀ x ∈ l₁, x.id ≠ id) ∧
      update_drink payload store id (some b) true =
        (⟨200, some (successDrinksJson [(patchedDrink drink b).long])⟩,
         l₁ ++ patchedDrink drink b :: l₂) ∧
      (patchedDrink drink b).id = drink.id ∧
      (b.title.get = none → (patchedDrink drink b).title = drink.title) ∧
      (∀ t, b.title.get = some t → (patchedDrink drink b).title = t) ∧
      (b.recipe.get = none → (patchedDrink drink b).recipe = drink.recipe) ∧
      (∀ r, b.recipe.get = some r → (patchedDrink drink b).recipe = r) := by
  obtain ⟨l₁, l₂, hs, hl₁, hid, hupd, -⟩ := findById_decomp store id drink h
  have hfields :
      (patchedDrink drink b).id = drink.id ∧
      (b.title.get = none → (patchedDrink drink b).title = drink.title) ∧
      (∀ t, b.title.get = some t → (patchedDrink drink b).title = t) ∧
      (b.recipe.get = none → (patchedDrink drink b).recipe = drink.recipe) ∧
      (∀ r, b.recipe.get = some r → (patchedDrink drink b).recipe = r) := by
    cases ht : b.title.get <;> cases hr : b.recipe.get <;>
      simp [patchedDrink, ht, hr]
  refine ⟨l₁, l₂, hs, hl₁, ?_, hfields.1, hfields.2.1, hfields.2.2.1,
    hfields.2.2.2.1, hfields.2.2.2.2⟩
  simp [update_drink, update_drink_try, h, hupd]

/-- A sample ingredient for concrete instances. -/
def ing0 : Ingredient := ⟨("Water"), ("blue"), 1⟩

/-- A sample stored drink. -/
def drink0 : Drink := ⟨1, ("Water"), [ing0]⟩

/-- A second sample stored drink. -/
def drink1 : Drink := ⟨2, ("Milk"), [ing0]⟩

/-- A sample store holding the two sample drinks. -/
def store0 : Store := [drink0, drink1]

/-- Sample claims carrying all four permissions. -/
def claims0 : Claims :=
  ⟨some [("get:drinks-detail"), ("post:drinks"), ("patch:drinks"), ("delete:drinks")]⟩

/-- Witness for C2 at a concrete input: patching drink 1 of the sample store
with only a new title. -/
theorem patch_changes_only_supplied_fields_witness :
    ∃ l₁ l₂,
      store0 = l₁ ++ drink0 :: l₂ ∧ (∀ x ∈ l₁, x.id ≠ 1) ∧
      update_drink claims0 store0 1 (some ⟨Field.value ("New"), Field.absent⟩) true =
        (⟨200, some (successDrinksJson
           [(patchedDrink drink0 ⟨Field.value ("New"), Field.absent⟩).long])⟩,
         l₁ ++ patchedDrink drink0 ⟨Field.value ("New"), Field.absent⟩ :: l₂) ∧
      (patchedDrink drink0 ⟨Field.value ("New"), Field.absent⟩).id = drink0.id ∧
      ((Field.value ("New")).get = none →
        (patchedDrink drink0 ⟨Field.value ("New"), Field.absent⟩).title = drink0.title) ∧
      (∀ t, (Field.value ("New")).get = some t →
        (patchedDrink drink0 ⟨Field.value ("New"), Field.absent⟩).title = t) ∧
      ((Field.absent : Field (List Ingredient)).get = none →
        (patchedDrink drink0 ⟨Field.value ("New"), Field.absent⟩).recipe = drink0.recipe) ∧
      (∀ r, (Field.absent : Field (List Ingredient)).get = some r →
        (patchedDrink drink0 ⟨Field.value ("New"), Field.absent⟩).recipe = r) := by
  have := patch_changes_only_supplied_fields claims0 store0 1
    ⟨Field.value ("New"), Field.absent⟩ drink0 rfl
  simpa [DrinkBody.mk.injEq] using this

/-- C3: a DELETE of a stored id removes exactly that drink (the rows before
and after it are kept, and — ids being unique — no remaining row carries the
id) and responds `{success: true, delete: id}`; repeating the same delete on
the resulting store, or deleting any id with no matching drink, responds
with the 404 envelope and leaves the store unchanged. -/
theorem delete_removes_exactly_one (payload : Claims) (store : Store) (id : Nat)
    (drink : Drink) (hnd : (store.map Drink.id).Nodup)
    (h : findById store id = some drink) :
    ∃ l₁ l₂,
      store = l₁ ++ drink :: l₂ ∧ drink.id = id ∧
      delete_drink payload store id true = (⟨200, some (deleteJson id)⟩, l₁ ++ l₂) ∧
      (∀ d ∈ l₁ ++ l₂, d.id ≠ id) ∧
      delete_drink payload (l₁ ++ l₂) id true =
        (⟨404, some (errorEnvelope 404 ("resource not found"))⟩, l₁ ++ l₂) ∧
      (∀ s : Store, findById s id = none →
        delete_drink payload s id true =
          (⟨404, some (errorEnvelope 404 ("resource not found"))⟩, s)) := by
  have h404 : ∀ s : Store, findById s id = none →
      delete_drink payload s id true =
        (⟨404, some (errorEnvelope 404 ("resource not found"))⟩, s) := by
    intro s hs
    simp [delete_drink, delete_drink_try, hs, handle_exception, error_response]
  obtain ⟨l₁, l₂, hs, hl₁, hid, -, hera⟩ := findById_decomp store id drink h
  have hl₂ : ∀ d ∈ l₂, d.id ≠ id := by
    intro d hd
    rw [hs] at hnd
    simp only [List.map_append, List.map_cons] at hnd
    have := (List.nodup_cons.mp (hnd.of_append_right)).1
    intro hdid
    apply this
    have hmem : d.id ∈ List.map Drink.id l₂ := List.mem_map_of_mem Drink.id hd
    rwa [hdid, ← hid] at hmem
  have hrest : ∀ d ∈ l₁ ++ l₂, d.id ≠ id := by
    intro d hd
    rcases List.mem_append.mp hd with h1 | h2
    · exact hl₁ d h1
    · exact hl₂ d h2
  refine ⟨l₁, l₂, hs, hid, ?_, hrest, ?_, h404⟩
  · simp [delete_drink, delete_drink_try, h, hera]
  · exact h404 _ (findById_eq_none _ _ hrest)

/-- Witness for C3 at a concrete input: deleting drink 2 from the sample
store. -/
theorem delete_removes_exactly_one_witness :
    ∃ l₁ l₂,
      store0 = l₁ ++ drink1 :: l₂ ∧ drink1.id = 2 ∧
      delete_drink claims0 store0 2 true = (⟨200, some (deleteJson 2)⟩, l₁ ++ l₂) ∧
      (∀ d ∈ l₁ ++ l₂, d.id ≠ 2) ∧
      delete_drink claims0 (l₁ ++ l₂) 2 true =
        (⟨404, some (errorEnvelope 404 ("resource not found"))⟩, l₁ ++ l₂) ∧
      (∀ s : Store, findById s 2 = none →
        delete_drink claims0 s 2 true =
          (⟨404, some (errorEnvelope 404 ("resource not found"))⟩, s)) :=
  delete_removes_exactly_one claims0 store0 2 drink1 (by decide) rfl

/-- C5: a POST with a well-formed body persists exactly one new row — the
old store with the created drink appended — carrying the supplied title and
recipe, and responds `{success: true, drinks: [d]}` with `d` the created
drink in long projection; every exception in the `try` block (unparseable
body, missing required column, failing insert) yields the 422 unprocessable
envelope and leaves the store unchanged. -/
theorem post_creates_exactly_one_row (payload : Claims) (store : Store)
    (nextId : Nat) (b : DrinkBody) (t : String) (r : List Ingredient) :
    (b.title.get = some t → b.recipe.get = some r →
      create_drink payload store nextId (some b) true =
        (⟨200, some (successDrinksJson [(Drink.mk nextId t r).long])⟩,
         store ++ [Drink.mk nextId t r])) ∧
    (∀ body insertOk e, create_drink_try store nextId body insertOk = .error e →
      create_drink payload store nextId body insertOk =
        (⟨422, some (errorEnvelope 422 ("unprocessable"))⟩, store)) := by
  constructor
  · intro ht hr
    simp [create_drink, create_drink_try, ht, hr]
  · intro body insertOk e he
    simp [create_drink, he, error_response]

/-- Witness for C5 at a concrete input: creating a drink with title and
recipe supplied. -/
theorem post_creates_exactly_one_row_witness :
    create_drink claims0 store0 3 (some ⟨Field.value ("Tea"), Field.value [ing0]⟩) true =
      (⟨200, some (successDrinksJson [(Drink.mk 3 ("Tea") [ing0]).long])⟩,
       store0 ++ [Drink.mk 3 ("Tea") [ing0]]) :=
  (post_creates_exactly_one_row claims0 store0 3
    ⟨Field.value ("Tea"), Field.value [ing0]⟩ ("Tea") [ing0]).1 rfl rfl

/-- C10: a PATCH body field supplied with JSON value `null` behaves exactly
like an absent field — the whole handler gives the same response and store
as with the field absent, and the stored drink keeps its previous value for
that field rather than having it set to null. -/
theorem patch_null_field_treated_as_absent (payload : Claims) (store : Store)
    (id : Nat) (tb : Field String) (rb : Field (List Ingredient))
    (persistOk : Bool) :
    update_drink payload store id (some ⟨Field.null, rb⟩) persistOk =
      update_drink payload store id (some ⟨Field.absent, rb⟩) persistOk ∧
    update_drink payload store id (some ⟨tb, Field.null⟩) persistOk =
      update_drink payload store id (some ⟨tb, Field.absent⟩) persistOk ∧
    (∀ drink : Drink, ∀ b : DrinkBody, b.title = Field.null →
      (patchedDrink drink b).title = drink.title) ∧
    (∀ drink : Drink, ∀ b : DrinkBody, b.recipe = Field.null →
      (patchedDrink drink b).recipe = drink.recipe) := by
  refine ⟨rfl, rfl, ?_, ?_⟩
  · rintro drink ⟨bt, br⟩ rfl
    cases br <;> simp [patchedDrink, Field.get]
  · rintro drink ⟨bt, br⟩ rfl
    cases bt <;> simp [patchedDrink, Field.get]

/-- Witness for C10 at a concrete input: a body carrying `title: null` keeps
the stored title. -/
theorem patch_null_field_treated_as_absent_witness :
    (patchedDrink drink0 ⟨Field.null, Field.absent⟩).title = drink0.title :=
  (patch_null_field_treated_as_absent claims0 store0 1 Field.absent Field.absent
    true).2.2.1 drink0 ⟨Field.null, Field.absent⟩ rfl

/-- The auth pipeline on its own: header parse, then token verification,
then permission check, returning the verified claims. -/
def auth_pipeline (verify : String → Except AuthError Claims) (permission : String)
    (header : Option String) : Except AuthError Claims :=
  requires_auth verify permission (fun c => c) header

theorem run_protected_of_pipeline_error (verify : String → Except AuthError Claims)
    (permission : String) (handler : Claims → Store → HttpResponse × Store)
    (header : Option String) (store : Store) (e : AuthError)
    (h : auth_pipeline verify permission header = .error e) :
    run_protected verify permission handler header store =
      (flask_dispatch (.auth e), store) := by
  unfold auth_pipeline requires_auth at h
  unfold run_protected requires_auth
  cases hg : get_token_auth_header header with
  | error e' => simp only [hg] at h ⊢; simp_all
  | ok token =>
    simp only [hg] at h ⊢
    cases hv : verify token with
    | error e' => simp only [hv] at h ⊢; simp_all
    | ok payload =>
      simp only [hv] at h ⊢
      cases hc : check_permissions permission payload with
      | error e' => simp only [hc] at h ⊢; simp_all
      | ok u => simp only [hc] at h ⊢; simp_all

theorem run_protected_of_pipeline_ok (verify : String → Except AuthError Claims)
    (permission : String) (handler : Claims → Store → HttpResponse × Store)
    (header : Option String) (store : Store) (payload : Claims)
    (h : auth_pipeline verify permission header = .ok payload) :
    run_protected verify permission handler header store = handler payload store := by
  unfold auth_pipeline requires_auth at h
  unfold run_protected requires_auth
  cases hg : get_token_auth_header header with
  | error e' => simp only [hg] at h ⊢; simp_all
  | ok token =>
    simp only [hg] at h ⊢
    cases hv : verify token with
    | error e' => simp only [hv] at h ⊢; simp_all
    | ok payload' =>
      simp only [hv] at h ⊢
      cases hc : check_permissions permission payload' with
      | error e' => simp only [hc] at h ⊢; simp_all
      | ok u => simp only [hc] at h ⊢; simp_all

/-- C1: for each of the four non-public routes, the auth pipeline (header
parse, token verification, permission check) runs before the handler.  If
any stage fails with an `AuthError` the response is Flask's dispatch of that
error and the store is unchanged — whatever the handler's other inputs, so
the handler body is never executed (a delete, for instance, removes
nothing).  If the pipeline succeeds the route is exactly the handler applied
to the verified claims as its first argument.  The theorem holds for an
arbitrary token verifier `verify`. -/
theorem auth_gate_runs_before_every_handler
    (verify : String → Except AuthError Claims) (header : Option String)
    (store : Store) (id nextId : Nat) (body : Option DrinkBody)
    (persistOk insertOk : Bool) :
    (∀ e, auth_pipeline verify ("get:drinks-detail") header = .error e →
      get_drinks_detail_route verify header store = (flask_dispatch (.auth e), store)) ∧
    (∀ payload, auth_pipeline verify ("get:drinks-detail") header = .ok payload →
      get_drinks_detail_route verify header store = get_drinks_detail payload store) ∧
    (∀ e, auth_pipeline verify ("post:drinks") header = .error e →
      create_drink_route verify header store nextId body insertOk =
        (flask_dispatch (.auth e), store)) ∧
    (∀ payload, auth_pipeline verify ("post:drinks") header = .ok payload →
      create_drink_route verify header store nextId body insertOk =
        create_drink payload store nextId body insertOk) ∧
    (∀ e, auth_pipeline verify ("patch:drinks") header = .error e →
      update_drink_route verify header store id body persistOk =
        (flask_dispatch (.auth e), store)) ∧
    (∀ payload, auth_pipeline verify ("patch:drinks") header = .ok payload →
      update_drink_route verify header store id body persistOk =
        update_drink payload store id body persistOk) ∧
    (∀ e, auth_pipeline verify ("delete:drinks") header = .error e →
      delete_drink_route verify header store id persistOk =
        (flask_dispatch (.auth e), store)) ∧
    (∀ payload, auth_pipeline verify ("delete:drinks") header = .ok payload →
      delete_drink_route verify header store id persistOk =
        delete_drink payload store id persistOk) :=
  ⟨fun e he => run_protected_of_pipeline_error _ _ _ _ _ e he,
   fun payload hp => run_protected_of_pipeline_ok _ _ _ _ _ payload hp,
   fun e he => run_protected_of_pipeline_error _ _ _ _ _ e he,
   fun payload hp => run_protected_of_pipeline_ok _ _ _ _ _ payload hp,
   fun e he => run_protected_of_pipeline_error _ _ _ _ _ e he,
   fun payload hp => run_protected_of_pipeline_ok _ _ _ _ _ payload hp,
   fun e he => run_protected_of_pipeline_error _ _ _ _ _ e he,
   fun payload hp => run_protected_of_pipeline_ok _ _ _ _ _ payload hp⟩

/-- Witness for C1 at a concrete input: with no `Authorization` header the
DELETE route fails before its handler and the sample store keeps both
drinks; with a valid header and a verifier accepting the token, the route is
the handler on the verified claims. -/
theorem auth_gate_runs_before_every_handler_witness :
    (delete_drink_route (fun _ => .ok claims0) none store0 1 true =
      (flask_dispatch (.auth ⟨401, .missingToken, ("Authorization header is expected")⟩),
       store0)) ∧
    (delete_drink_route (fun _ => .ok claims0) (some ("Bearer tok")) store0 1 true =
      delete_drink claims0 store0 1 true) :=
  ⟨(auth_gate_runs_before_every_handler (fun _ => .ok claims0) none store0 1 3
      none true true).2.2.2.2.2.2.1
      ⟨401, .missingToken, ("Authorization header is expected")⟩ rfl,
   (auth_gate_runs_before_every_handler (fun _ => .ok claims0) (some ("Bearer tok"))
      store0 1 3 none true true).2.2.2.2.2.2.2 claims0 rfl⟩

/-- C8: every response produced by Flask's dispatch of a raised exception
whose status is 401, 403, 404 or 422 has a JSON body of exactly the shape
`{success: false, error: <status>, message: <string>}`, the `error` field
equal to the response's own HTTP status.  (All error responses of the
embedded routes are such dispatches: the handlers' `abort` calls go through
`error_response = flask_dispatch ∘ Raised.http`, and an escaped `AuthError`
is dispatched to a 500, outside the four codes.) -/
theorem error_envelope_matches_status (r : Raised)
    (h : (flask_dispatch r).status = 401 ∨ (flask_dispatch r).status = 403 ∨
         (flask_dispatch r).status = 404 ∨ (flask_dispatch r).status = 422) :
    ∃ msg, (flask_dispatch r).json =
      some (errorEnvelope ((flask_dispatch r).status) msg) := by
  cases r with
  | auth e => simp [flask_dispatch] at h
  | http c =>
    simp only [flask_dispatch] at h ⊢
    unfold error_response at h ⊢
    split_ifs at h ⊢ <;>
      first
        | exact ⟨("unprocessable"), rfl⟩
        | exact ⟨("resource not found"), rfl⟩
        | exact ⟨("unauthorized"), rfl⟩
        | exact ⟨("forbidden"), rfl⟩
        | simp_all

/-- Witness for C8 at a concrete input: the dispatched 404. -/
theorem error_envelope_matches_status_witness :
    ∃ msg, (flask_dispatch (.http 404)).json =
      some (errorEnvelope ((flask_dispatch (.http 404)).status) msg) :=
  error_envelope_matches_status (.http 404) (by simp [flask_dispatch, error_response])

/-- C9 (code bug): `api.py` announces "implement error handler for
AuthError" but registers error handlers only for the numeric status codes
401/403/404/422, and none for the `AuthError` class itself; since
`AuthError` is not an `HTTPException`, an auth failure escapes every
registered handler and Flask answers with its generic 500 page.  Evaluated
at the failing input — GET `/drinks-detail` with no `Authorization` header —
the auth layer fails with status 401, code `MissingToken` and a description,
yet the response is a bare 500 with no JSON body: neither the failure's own
status nor its code and description survive, contradicting the claim. -/
theorem auth_error_not_preserved_in_response :
    get_token_auth_header none =
      .error ⟨401, .missingToken, ("Authorization header is expected")⟩ ∧
    get_drinks_detail_route (fun _ => .ok claims0) none store0 =
      (⟨500, none⟩, store0) ∧
    (⟨500, none⟩ : HttpResponse).status ≠ 401 ∧
    (⟨500, none⟩ : HttpResponse).json = none :=
  ⟨rfl, rfl, by decide, rfl⟩

end DrinksApi
